import Mathlib

/-!
Verification of the `rsfs` disk adapter (`src/disk/fs.rs`).

The repository's only source file is a thin adapter from the abstract
`rsfs` filesystem traits to native `std::fs` calls.  We embed it
shallowly: the native `std::fs` layer (external to the repository) is
modelled either as an abstract oracle (`NativeFS`, `NativeFileOps`) whose
answers are universally quantified, or — where a claim needs concrete
native semantics (`open` with `create_new`) — as an explicit function on
a small filesystem state, modelled from the documented `std::fs`
semantics quoted in the spec.  The adapter's own code is translated
definition-for-definition from the Rust source.
-/

namespace Rsfs

/-! ### Native layer: models of `std::fs` types -/

/-- Error kinds of `std::io::ErrorKind` that the spec's error taxonomy names. -/
inductive ErrorKind : Type
  | notFound
  | alreadyExists
  | permissionDenied
  | invalidInput
  | interrupted
  | other (code : Nat)
  deriving DecidableEq

/-- A native `std::io::Error`, reduced to its kind (the adapter never inspects it). -/
structure IoError : Type where
  kind : ErrorKind
  deriving DecidableEq

/-- Paths are abstract; the adapter passes them through uninterpreted. -/
abbrev Path := String

/-- A returned owned path (`std::path::PathBuf`). -/
abbrev PathBuf := String

/-- A returned file name (`std::ffi::OsString`). -/
abbrev OsString := String

/-- Native `std::fs::Permissions` on unix: a raw mode-bits value.
`readonly` and `set_readonly` below follow the documented unix behavior of
`std::fs::Permissions` (the write bits are `0o222`). -/
structure RsPermissions : Type where
  mode : Nat
  deriving DecidableEq

/-- Native `Permissions::readonly`: true iff no write bit (`0o222`) is set. -/
def RsPermissions.readonly (p : RsPermissions) : Bool :=
  p.mode &&& 0o222 == 0

/-- Native `Permissions::set_readonly`: clears or sets the write bits in memory. -/
def RsPermissions.set_readonly (p : RsPermissions) (readonly : Bool) : RsPermissions :=
  if readonly then ⟨p.mode &&& (0xFFFFFFFF ^^^ 0o222)⟩ else ⟨p.mode ||| 0o222⟩

/-- Native `std::fs::FileType`: a classification snapshot. -/
structure RsFileType : Type where
  is_dir : Bool
  is_file : Bool
  deriving DecidableEq

/-- Native `std::fs::Metadata`: a stat snapshot. -/
structure RsMetadata : Type where
  is_dir : Bool
  is_file : Bool
  len : Nat
  permissions : RsPermissions
  deriving DecidableEq

/-- A native open file handle (`std::fs::File`), identified by what it was opened on. -/
structure NativeFile : Type where
  path : Path
  deriving DecidableEq

/-- A native `std::fs::DirEntry`: a stored path and file name, plus the OS's
answer to a (lazy) metadata query on the entry. -/
structure NativeDirEntry : Type where
  path : PathBuf
  file_name : OsString
  metadata_result : Except IoError RsMetadata

/-- A native `std::fs::ReadDir` stream: the remaining items the OS will yield,
each independently an entry or an error, ending when the list is exhausted. -/
abbrev RsReadDir := List (Except IoError NativeDirEntry)

/-- Native `std::fs::OpenOptions`: the accumulated open flags and mode bits. -/
structure RsOpenOptions : Type where
  read : Bool
  write : Bool
  append : Bool
  truncate : Bool
  create : Bool
  create_new : Bool
  mode : Nat
  deriving DecidableEq

/-- Native `OpenOptions::new`: all flags unset, default mode `0o666` (documented
`std::fs` default). -/
def RsOpenOptions.new : RsOpenOptions :=
  ⟨false, false, false, false, false, false, 0o666⟩

/-- Native `std::fs::DirBuilder`: recursive flag and mode bits. -/
structure RsDirBuilder : Type where
  recursive : Bool
  mode : Nat
  deriving DecidableEq

/-- Native `DirBuilder::new`: recursive off, default mode `0o777` (documented
`std::fs` default). -/
def RsDirBuilder.new : RsDirBuilder :=
  ⟨false, 0o777⟩

/-- External filesystem state: the set of paths that currently exist, for the
claims that need concrete native `open` semantics. -/
structure FsState : Type where
  files : List Path
  deriving DecidableEq

/-- Whether a path exists in the external state. -/
def FsState.present (st : FsState) (p : Path) : Bool :=
  st.files.contains p

/-- Modelled from the spec: the native `std::fs::OpenOptions::open` call (the
`std` library is not part of `src/`).  Per the spec's §4.2 and §8.3: with
`create_new` set it fails with `AlreadyExists` when the path exists and
otherwise creates it and succeeds; with `create` set it opens or creates;
with neither it fails with `NotFound` when the path is absent. -/
def nativeOpen (o : RsOpenOptions) (p : Path) (st : FsState) :
    Except IoError NativeFile × FsState :=
  if o.create_new then
    if st.present p then (Except.error ⟨ErrorKind.alreadyExists⟩, st)
    else (Except.ok ⟨p⟩, ⟨p :: st.files⟩)
  else if o.create then
    if st.present p then (Except.ok ⟨p⟩, st)
    else (Except.ok ⟨p⟩, ⟨p :: st.files⟩)
  else
    if st.present p then (Except.ok ⟨p⟩, st)
    else (Except.error ⟨ErrorKind.notFound⟩, st)

/-- Modelled from the spec: the native `std::fs::DirBuilder::create` call.
Per §4.3: recursive creation succeeds even if ancestors exist; non-recursive
creation fails with `AlreadyExists` when the target exists. -/
def nativeMkdir (b : RsDirBuilder) (p : Path) (st : FsState) :
    Except IoError Unit × FsState :=
  if st.present p then
    if b.recursive then (Except.ok (), st)
    else (Except.error ⟨ErrorKind.alreadyExists⟩, st)
  else (Except.ok (), ⟨p :: st.files⟩)

/-- Oracle for the native path-level `std::fs` free functions the adapter
forwards to: whatever answer the OS would give on each argument. -/
structure NativeFS : Type where
  metadata : Path → Except IoError RsMetadata
  read_dir : Path → Except IoError RsReadDir
  rename : Path → Path → Except IoError Unit
  remove_dir : Path → Except IoError Unit
  remove_dir_all : Path → Except IoError Unit
  remove_file : Path → Except IoError Unit

/-- A seek target (`std::io::SeekFrom`). -/
inductive SeekFrom : Type
  | start (n : Nat)
  | current (i : Int)
  | fromEnd (i : Int)
  deriving DecidableEq

/-- Oracle for the native calls on an open file descriptor. -/
structure NativeFileOps : Type where
  read : NativeFile → Nat → Except IoError (Nat × NativeFile)
  write : NativeFile → List Nat → Except IoError (Nat × NativeFile)
  seek : NativeFile → SeekFrom → Except IoError (Nat × NativeFile)
  metadata : NativeFile → Except IoError RsMetadata

/-- One native syscall issued through the adapter, recorded in a trace so that
frame claims ("performs no filesystem call") are statable. -/
inductive NativeCall : Type
  | readCall (f : NativeFile)
  | writeCall (f : NativeFile)
  | seekCall (f : NativeFile)
  | statCall (f : NativeFile)
  deriving DecidableEq

/-! ### The adapter (translated from `src/disk/fs.rs`) -/

/-- Adapter `Permissions`: single-field wrapper around `std::fs::Permissions`. -/
structure Permissions : Type where
  inner : RsPermissions
  deriving DecidableEq

/-- `Permissions::readonly`: forwards to the native value. -/
def Permissions.readonly (p : Permissions) : Bool :=
  p.inner.readonly

/-- `Permissions::set_readonly`: forwards to the native in-memory setter; the
`&mut self` receiver is embedded as returning the updated value.  No filesystem
state (`FsState`) and no `NativeCall` is involved. -/
def Permissions.set_readonly (p : Permissions) (readonly : Bool) : Permissions :=
  ⟨p.inner.set_readonly readonly⟩

/-- Adapter `FileType`: single-field wrapper around `std::fs::FileType`. -/
structure FileType : Type where
  inner : RsFileType
  deriving DecidableEq

/-- `FileType::is_dir`: forwards. -/
def FileType.is_dir (t : FileType) : Bool :=
  t.inner.is_dir

/-- `FileType::is_file`: forwards. -/
def FileType.is_file (t : FileType) : Bool :=
  t.inner.is_file

/-- Adapter `Metadata`: single-field wrapper around `std::fs::Metadata`. -/
structure Metadata : Type where
  inner : RsMetadata
  deriving DecidableEq

/-- `Metadata::is_dir`: forwards. -/
def Metadata.is_dir (m : Metadata) : Bool :=
  m.inner.is_dir

/-- `Metadata::is_file`: forwards. -/
def Metadata.is_file (m : Metadata) : Bool :=
  m.inner.is_file

/-- `Metadata::len`: forwards. -/
def Metadata.len (m : Metadata) : Nat :=
  m.inner.len

/-- `Metadata::permissions`: returns the native mode bits (`.permissions().mode()`). -/
def Metadata.permissions (m : Metadata) : Nat :=
  m.inner.permissions.mode

/-- Adapter `File`: single-field wrapper around `std::fs::File`. -/
structure File : Type where
  inner : NativeFile
  deriving DecidableEq

/-- `File::metadata`: `self.0.metadata().map(Metadata)` — one native stat call. -/
def File.metadata (ops : NativeFileOps) (f : File) :
    Except IoError Metadata × List NativeCall :=
  ((ops.metadata f.inner).map Metadata.mk, [NativeCall.statCall f.inner])

/-- `Read::read` for `File`: `self.0.read(buf)` — one native read call. -/
def File.read (ops : NativeFileOps) (f : File) (bufLen : Nat) :
    Except IoError (Nat × File) × List NativeCall :=
  ((ops.read f.inner bufLen).map (fun r => (r.1, File.mk r.2)),
   [NativeCall.readCall f.inner])

/-- `Write::write` for `File`: `self.0.write(buf)` — one native write call. -/
def File.write (ops : NativeFileOps) (f : File) (buf : List Nat) :
    Except IoError (Nat × File) × List NativeCall :=
  ((ops.write f.inner buf).map (fun r => (r.1, File.mk r.2)),
   [NativeCall.writeCall f.inner])

/-- `Write::flush` for `File`: the body is `Ok(())` — no call on `self.0`. -/
def File.flush (_ops : NativeFileOps) (f : File) :
    (Except IoError Unit × File) × List NativeCall :=
  ((Except.ok (), f), [])

/-- `Seek::seek` for `File`: `self.0.seek(pos)` — one native seek call. -/
def File.seek (ops : NativeFileOps) (f : File) (pos : SeekFrom) :
    Except IoError (Nat × File) × List NativeCall :=
  ((ops.seek f.inner pos).map (fun r => (r.1, File.mk r.2)),
   [NativeCall.seekCall f.inner])

/-- Adapter `OpenOptions`: single-field wrapper around `std::fs::OpenOptions`. -/
structure OpenOptions : Type where
  inner : RsOpenOptions
  deriving DecidableEq

/-- `OpenOptions::read`: `self.0.read(read); self` (the `&mut self` receiver is
embedded as returning the updated builder). -/
def OpenOptions.read (o : OpenOptions) (b : Bool) : OpenOptions :=
  ⟨{ o.inner with read := b }⟩

/-- `OpenOptions::write`. -/
def OpenOptions.write (o : OpenOptions) (b : Bool) : OpenOptions :=
  ⟨{ o.inner with write := b }⟩

/-- `OpenOptions::append`. -/
def OpenOptions.append (o : OpenOptions) (b : Bool) : OpenOptions :=
  ⟨{ o.inner with append := b }⟩

/-- `OpenOptions::truncate`. -/
def OpenOptions.truncate (o : OpenOptions) (b : Bool) : OpenOptions :=
  ⟨{ o.inner with truncate := b }⟩

/-- `OpenOptions::create`. -/
def OpenOptions.create (o : OpenOptions) (b : Bool) : OpenOptions :=
  ⟨{ o.inner with create := b }⟩

/-- `OpenOptions::create_new`. -/
def OpenOptions.create_new (o : OpenOptions) (b : Bool) : OpenOptions :=
  ⟨{ o.inner with create_new := b }⟩

/-- `OpenOptions::mode`. -/
def OpenOptions.mode (o : OpenOptions) (m : Nat) : OpenOptions :=
  ⟨{ o.inner with mode := m }⟩

/-- `OpenOptions::open`: `self.0.open(path).map(File)`.  The receiver is `&self`. -/
def OpenOptions.openFile (o : OpenOptions) (p : Path) (st : FsState) :
    Except IoError File × FsState :=
  ((nativeOpen o.inner p st).1.map File.mk, (nativeOpen o.inner p st).2)

/-- A call `o.open(path)` through the immutable `&self` borrow, embedded in
state-passing style: the result together with the (unchanged) builder. -/
def OpenOptions.open_call (o : OpenOptions) (p : Path) (st : FsState) :
    (Except IoError File × FsState) × OpenOptions :=
  (o.openFile p st, o)

/-- Adapter `DirBuilder`: single-field wrapper around `std::fs::DirBuilder`. -/
structure DirBuilder : Type where
  inner : RsDirBuilder
  deriving DecidableEq

/-- `DirBuilder::recursive`: `self.0.recursive(recursive); self`. -/
def DirBuilder.recursive (d : DirBuilder) (b : Bool) : DirBuilder :=
  ⟨{ d.inner with recursive := b }⟩

/-- `DirBuilder::mode`. -/
def DirBuilder.mode (d : DirBuilder) (m : Nat) : DirBuilder :=
  ⟨{ d.inner with mode := m }⟩

/-- `DirBuilder::create`: `self.0.create(path)`. -/
def DirBuilder.create (d : DirBuilder) (p : Path) (st : FsState) :
    Except IoError Unit × FsState :=
  nativeMkdir d.inner p st

/-- Adapter `DirEntry`: single-field wrapper around `std::fs::DirEntry`. -/
structure DirEntry : Type where
  inner : NativeDirEntry

/-- `DirEntry::path`: `self.0.path()` — total, returns the stored path. -/
def DirEntry.path (d : DirEntry) : PathBuf :=
  d.inner.path

/-- `DirEntry::file_name`: `self.0.file_name()` — total, returns the stored name. -/
def DirEntry.file_name (d : DirEntry) : OsString :=
  d.inner.file_name

/-- `DirEntry::metadata`: `self.0.metadata().map(Metadata)` — fallible. -/
def DirEntry.metadata (d : DirEntry) : Except IoError Metadata :=
  d.inner.metadata_result.map Metadata.mk

/-- Adapter `ReadDir`: single-field wrapper around `std::fs::ReadDir`. -/
structure ReadDir : Type where
  inner : RsReadDir

/-- `Iterator::next` for `ReadDir`:
`self.0.next().map(|res| res.map(DirEntry))` — the native stream yields its
next item, and the adapter maps the `DirEntry` wrapper over it. -/
def ReadDir.next (r : ReadDir) : Option (Except IoError DirEntry) × ReadDir :=
  match r.inner with
  | [] => (none, ⟨[]⟩)
  | x :: xs => (some (x.map DirEntry.mk), ⟨xs⟩)

/-- Exhaustively iterating a `ReadDir` by repeated `next` until `none`. -/
def ReadDir.collect (r : ReadDir) : List (Except IoError DirEntry) :=
  match r with
  | ⟨[]⟩ => []
  | ⟨x :: xs⟩ => x.map DirEntry.mk :: ReadDir.collect ⟨xs⟩

/-- Adapter `FS`: an empty (fieldless) struct; `Copy`, `Clone`. -/
structure FS : Type
  deriving DecidableEq

/-- `GenFS::metadata` for `FS`: `fs::metadata(path).map(Metadata)`. -/
def FS.metadata (_self : FS) (os : NativeFS) (p : Path) : Except IoError Metadata :=
  (os.metadata p).map Metadata.mk

/-- `GenFS::read_dir` for `FS`: `fs::read_dir(path).map(ReadDir)`. -/
def FS.read_dir (_self : FS) (os : NativeFS) (p : Path) : Except IoError ReadDir :=
  (os.read_dir p).map ReadDir.mk

/-- `GenFS::rename` for `FS`: `fs::rename(from, to)`. -/
def FS.rename (_self : FS) (os : NativeFS) (from_ to_ : Path) : Except IoError Unit :=
  os.rename from_ to_

/-- `GenFS::remove_dir` for `FS`: `fs::remove_dir(path)`. -/
def FS.remove_dir (_self : FS) (os : NativeFS) (p : Path) : Except IoError Unit :=
  os.remove_dir p

/-- `GenFS::remove_dir_all` for `FS`: `fs::remove_dir_all(path)`. -/
def FS.remove_dir_all (_self : FS) (os : NativeFS) (p : Path) : Except IoError Unit :=
  os.remove_dir_all p

/-- `GenFS::remove_file` for `FS`: `fs::remove_file(path)`. -/
def FS.remove_file (_self : FS) (os : NativeFS) (p : Path) : Except IoError Unit :=
  os.remove_file p

/-- `GenFS::new_openopts` for `FS`: `OpenOptions(fs::OpenOptions::new())`. -/
def FS.new_openopts (_self : FS) : OpenOptions :=
  ⟨RsOpenOptions.new⟩

/-- `GenFS::new_dirbuilder` for `FS`: `DirBuilder(fs::DirBuilder::new())`. -/
def FS.new_dirbuilder (_self : FS) : DirBuilder :=
  ⟨RsDirBuilder.new⟩

/-! ### Spec-side definitions (for the refinement claim C1 only): the result of
"invoking the native OS call directly" and wrapping it, written from the
spec's words rather than from the adapter's code. -/

/-- The spec's description of `metadata`: the native result, success wrapped in
the single-field wrapper, failure passed through unchanged. -/
def specMetadata (os : NativeFS) (p : Path) : Except IoError Metadata :=
  match os.metadata p with
  | Except.ok m => Except.ok (Metadata.mk m)
  | Except.error e => Except.error e

/-- The spec's description of `read_dir`. -/
def specReadDir (os : NativeFS) (p : Path) : Except IoError ReadDir :=
  match os.read_dir p with
  | Except.ok r => Except.ok (ReadDir.mk r)
  | Except.error e => Except.error e

/-- The spec's description of `rename`: the native result unchanged. -/
def specRename (os : NativeFS) (from_ to_ : Path) : Except IoError Unit :=
  match os.rename from_ to_ with
  | Except.ok u => Except.ok u
  | Except.error e => Except.error e

/-- The spec's description of `remove_dir`. -/
def specRemoveDir (os : NativeFS) (p : Path) : Except IoError Unit :=
  match os.remove_dir p with
  | Except.ok u => Except.ok u
  | Except.error e => Except.error e

/-- The spec's description of `remove_dir_all`. -/
def specRemoveDirAll (os : NativeFS) (p : Path) : Except IoError Unit :=
  match os.remove_dir_all p with
  | Except.ok u => Except.ok u
  | Except.error e => Except.error e

/-- The spec's description of `remove_file`. -/
def specRemoveFile (os : NativeFS) (p : Path) : Except IoError Unit :=
  match os.remove_file p with
  | Except.ok u => Except.ok u
  | Except.error e => Except.error e

/-! ### Claims -/

/-- C1: every filesystem-handle operation (metadata, read_dir, rename,
remove_dir, remove_dir_all, remove_file) returns exactly the native call's
result: on success the native value wrapped in its single-field wrapper, on
failure the native error passed through unchanged, for every oracle answer. -/
theorem c1_fs_ops_refine_native (fs : FS) (os : NativeFS) (p q : Path) :
    FS.metadata fs os p = specMetadata os p ∧
    FS.read_dir fs os p = specReadDir os p ∧
    FS.rename fs os p q = specRename os p q ∧
    FS.remove_dir fs os p = specRemoveDir os p ∧
    FS.remove_dir_all fs os p = specRemoveDirAll os p ∧
    FS.remove_file fs os p = specRemoveFile os p := by
  refine ⟨?_, ?_, ?_, ?_, ?_, ?_⟩
  · cases h : os.metadata p <;> simp [FS.metadata, specMetadata, Except.map, h]
  · cases h : os.read_dir p <;> simp [FS.read_dir, specReadDir, Except.map, h]
  · cases h : os.rename p q <;> simp [FS.rename, specRename, h]
  · cases h : os.remove_dir p <;> simp [FS.remove_dir, specRemoveDir, h]
  · cases h : os.remove_dir_all p <;> simp [FS.remove_dir_all, specRemoveDirAll, h]
  · cases h : os.remove_file p <;> simp [FS.remove_file, specRemoveFile, h]

/-- C2: `flush` always returns success, leaves the file untouched, issues no
native call, and its result does not depend on what the native file operations
would do (no fsync or any other descriptor operation is performed). -/
theorem c2_flush_noop (ops ops2 : NativeFileOps) (f : File) :
    (File.flush ops f).1.1 = Except.ok () ∧
    (File.flush ops f).1.2 = f ∧
    (File.flush ops f).2 = [] ∧
    File.flush ops f = File.flush ops2 f :=
  ⟨rfl, rfl, rfl, rfl⟩

/-- Collecting a wrapped stream yields exactly the native stream's items, each
mapped through the `DirEntry` wrapper. -/
theorem collect_eq_map (l : RsReadDir) :
    ReadDir.collect ⟨l⟩ = l.map (Except.map DirEntry.mk) := by
  induction l with
  | nil => simp [ReadDir.collect]
  | cons x xs ih => simp [ReadDir.collect, ih]

/-- C3: each `next` on a `ReadDir` yields exactly the native stream's next item
(entry or error, wrapped), returns `none` exactly when the native stream is
exhausted, keeps iterating past an error item, and full iteration yields one
item per underlying entry. -/
theorem c3_readdir_iteration (r : ReadDir) (x : Except IoError NativeDirEntry)
    (xs : RsReadDir) (e : IoError) :
    ((ReadDir.next r).1 = none ↔ r.inner = []) ∧
    ReadDir.next ⟨x :: xs⟩ = (some (x.map DirEntry.mk), ⟨xs⟩) ∧
    ReadDir.next ⟨Except.error e :: xs⟩ = (some (Except.error e), ⟨xs⟩) ∧
    ReadDir.collect r = r.inner.map (Except.map DirEntry.mk) ∧
    (ReadDir.collect r).length = r.inner.length := by
  obtain ⟨l⟩ := r
  refine ⟨?_, rfl, rfl, collect_eq_map l, ?_⟩
  · cases l <;> simp [ReadDir.next]
  · rw [collect_eq_map l]
    exact List.length_map l _

/-- C4: an `open` call through the immutable borrow leaves the builder
unchanged, so reusing it opens with the same accumulated configuration. -/
theorem c4_open_preserves_builder (o : OpenOptions) (p q : Path) (st st2 : FsState) :
    (OpenOptions.open_call o p st).2 = o ∧
    OpenOptions.openFile (OpenOptions.open_call o p st).2 q st2 =
      OpenOptions.openFile o q st2 :=
  ⟨rfl, rfl⟩

/-- C5: setting the same flag twice to the same value on an `OpenOptions` or
`DirBuilder` yields a builder equal to setting it once (hence every subsequent
open or create behaves identically). -/
theorem c5_setters_idempotent (o : OpenOptions) (d : DirBuilder) (b : Bool) (m : Nat) :
    (o.read b).read b = o.read b ∧
    (o.write b).write b = o.write b ∧
    (o.append b).append b = o.append b ∧
    (o.truncate b).truncate b = o.truncate b ∧
    (o.create b).create b = o.create b ∧
    (o.create_new b).create_new b = o.create_new b ∧
    (o.mode m).mode m = o.mode m ∧
    (d.recursive b).recursive b = d.recursive b ∧
    (d.mode m).mode m = d.mode m :=
  ⟨rfl, rfl, rfl, rfl, rfl, rfl, rfl, rfl, rfl⟩

/-- C6: `new_openopts` returns a builder with all six flags unset (and the
documented default mode), and `new_dirbuilder` returns a builder with
`recursive = false` and the default mode bits. -/
theorem c6_fresh_builders (fs : FS) :
    (FS.new_openopts fs).inner.read = false ∧
    (FS.new_openopts fs).inner.write = false ∧
    (FS.new_openopts fs).inner.append = false ∧
    (FS.new_openopts fs).inner.truncate = false ∧
    (FS.new_openopts fs).inner.create = false ∧
    (FS.new_openopts fs).inner.create_new = false ∧
    (FS.new_dirbuilder fs).inner.recursive = false ∧
    (FS.new_dirbuilder fs).inner.mode = 0o777 :=
  ⟨rfl, rfl, rfl, rfl, rfl, rfl, rfl, rfl⟩

/-- C7: `set_readonly` mutates only the in-memory `Permissions` value: its type
involves no `FsState` and emits no `NativeCall`, the change is observable via a
subsequent `readonly` call, and every mode bit outside the write bits
(bits 1, 4, 7) is preserved. -/
theorem c7_set_readonly_in_memory (p : Permissions) (b : Bool) (i : Nat)
    (h : p.inner.mode < 2 ^ 32) :
    (p.set_readonly b).readonly = b ∧
    (Nat.testBit (p.set_readonly b).inner.mode i = Nat.testBit p.inner.mode i ∨
      i = 1 ∨ i = 4 ∨ i = 7) := by
  obtain ⟨⟨m⟩⟩ := p
  simp only [Permissions.set_readonly, Permissions.readonly, RsPermissions.set_readonly,
    RsPermissions.readonly] at *
  have hmask : (0xFFFFFFFF ^^^ 0o222 : Nat) = 4294967149 := by decide
  cases b with
  | true =>
    simp only [if_pos trivial, hmask]
    constructor
    · rw [Nat.land_assoc]
      norm_num [show (4294967149 : Nat) &&& 0o222 = 0 from by decide]
    · by_cases hi : i = 1 ∨ i = 4 ∨ i = 7
      · right; exact hi
      · left
        rcases Nat.lt_or_ge i 32 with h32 | h32
        · have hc : ∀ k, k < 32 → ¬(k = 1 ∨ k = 4 ∨ k = 7) →
              Nat.testBit 4294967149 k = true := by decide
          rw [Nat.testBit_and, hc i h32 hi, Bool.and_true]
        · have hm : Nat.testBit m i = false :=
            Nat.testBit_lt_two_pow
              (lt_of_lt_of_le h (Nat.pow_le_pow_right (by norm_num) h32))
          rw [Nat.testBit_and, hm, Bool.false_and]
  | false =>
    constructor
    · simp only [if_neg Bool.false_ne_true]
      have ht : Nat.testBit ((m ||| 0o222) &&& 0o222) 1 = true := by
        rw [Nat.testBit_and, Nat.testBit_or]
        simp [show Nat.testBit 0o222 1 = true from by decide]
      simp only [beq_eq_false_iff_ne, ne_eq]
      intro h0
      rw [h0] at ht
      simp [Nat.zero_testBit] at ht
    · by_cases hi : i = 1 ∨ i = 4 ∨ i = 7
      · right; exact hi
      · left
        simp only [if_neg Bool.false_ne_true]
        rcases Nat.lt_or_ge i 8 with h8 | h8
        · have hc : ∀ k, k < 8 → ¬(k = 1 ∨ k = 4 ∨ k = 7) →
              Nat.testBit 0o222 k = false := by decide
          rw [Nat.testBit_or, hc i h8 hi, Bool.or_false]
        · have h146 : Nat.testBit 0o222 i = false :=
            Nat.testBit_lt_two_pow
              (lt_of_lt_of_le (by norm_num) (Nat.pow_le_pow_right (by norm_num) h8))
          rw [Nat.testBit_or, h146, Bool.or_false]

/-- Witness for C7 at a concrete permissions value: mode `0o644` is a valid
`u32`; setting readonly makes `readonly` report `true`, and bit 0 is untouched. -/
theorem c7_witness :
    (0o644 : Nat) < 2 ^ 32 ∧
    ((Permissions.set_readonly ⟨⟨0o644⟩⟩ true).readonly = true ∧
      (Nat.testBit (Permissions.set_readonly ⟨⟨0o644⟩⟩ true).inner.mode 0 =
          Nat.testBit (0o644 : Nat) 0 ∨
        (0 : Nat) = 1 ∨ (0 : Nat) = 4 ∨ (0 : Nat) = 7)) :=
  ⟨by decide, c7_set_readonly_in_memory ⟨⟨0o644⟩⟩ true 0 (by decide)⟩

/-- C8: opening a path with a fresh builder configured `.write(true)
.create_new(true)` fails with `AlreadyExists` exactly when the path exists;
when it does not exist, the open succeeds and the path exists afterwards. -/
theorem c8_create_new_exclusive (fs : FS) (st : FsState) (p : Path) :
    (st.present p = true →
      ((((fs.new_openopts).write true).create_new true).openFile p st).1 =
        Except.error ⟨ErrorKind.alreadyExists⟩) ∧
    (st.present p = false →
      ((((fs.new_openopts).write true).create_new true).openFile p st).1 =
        Except.ok ⟨⟨p⟩⟩ ∧
      ((((fs.new_openopts).write true).create_new true).openFile p st).2.present p =
        true) := by
  constructor
  · intro hp
    have hp' : p ∈ st.files := by simpa [FsState.present] using hp
    simp [FS.new_openopts, OpenOptions.write, OpenOptions.create_new,
      OpenOptions.openFile, nativeOpen, RsOpenOptions.new, FsState.present, hp',
      Except.map]
  · intro hp
    have hp' : p ∉ st.files := by simpa [FsState.present] using hp
    refine ⟨?_, ?_⟩ <;>
      simp [FS.new_openopts, OpenOptions.write, OpenOptions.create_new,
        OpenOptions.openFile, nativeOpen, RsOpenOptions.new, FsState.present, hp',
        Except.map]

/-- Witness for C8 at concrete states: on a state where `a` exists the open
fails with `AlreadyExists`; on an empty state opening `b` succeeds and `b`
exists afterwards. -/
theorem c8_witness :
    (FsState.mk ["a"]).present "a" = true ∧
    ((((FS.mk.new_openopts).write true).create_new true).openFile "a" ⟨["a"]⟩).1 =
      Except.error ⟨ErrorKind.alreadyExists⟩ ∧
    (FsState.mk []).present "b" = false ∧
    ((((FS.mk.new_openopts).write true).create_new true).openFile "b" ⟨[]⟩).1 =
      Except.ok ⟨⟨"b"⟩⟩ ∧
    ((((FS.mk.new_openopts).write true).create_new true).openFile "b" ⟨[]⟩).2.present "b" =
      true :=
  ⟨by decide, (c8_create_new_exclusive FS.mk ⟨["a"]⟩ "a").1 (by decide),
   by decide, ((c8_create_new_exclusive FS.mk ⟨[]⟩ "b").2 (by decide)).1,
   ((c8_create_new_exclusive FS.mk ⟨[]⟩ "b").2 (by decide)).2⟩

/-- C9: the handle `FS` is a fieldless capability value: any two handles are
equal, and every operation's result depends only on the oracle (external state)
and the arguments, never on which copy of the handle is used. -/
theorem c9_fs_stateless (a b : FS) (os : NativeFS) (p q : Path) :
    a = b ∧
    a.metadata os p = b.metadata os p ∧
    a.read_dir os p = b.read_dir os p ∧
    a.rename os p q = b.rename os p q ∧
    a.remove_dir os p = b.remove_dir os p ∧
    a.remove_dir_all os p = b.remove_dir_all os p ∧
    a.remove_file os p = b.remove_file os p ∧
    a.new_openopts = b.new_openopts ∧
    a.new_dirbuilder = b.new_dirbuilder := by
  cases a
  cases b
  exact ⟨rfl, rfl, rfl, rfl, rfl, rfl, rfl, rfl, rfl⟩

/-- C10: `DirEntry.path` and `DirEntry.file_name` are total functions returning
the stored path and file name directly (a `PathBuf` / `OsString`, not a
`Result`), while `metadata` is the fallible accessor. -/
theorem c10_direntry_accessors_total (e : NativeDirEntry) :
    DirEntry.path ⟨e⟩ = e.path ∧
    DirEntry.file_name ⟨e⟩ = e.file_name ∧
    DirEntry.metadata ⟨e⟩ = e.metadata_result.map Metadata.mk :=
  ⟨rfl, rfl, rfl⟩

end Rsfs
